import Mathlib

/-!
Formal model of the Passbolt browser-extension authentication core.

The definitions below are a shallow embedding of:
* `src/all/background_page/controller/authController.js` — the login
  orchestration (`AuthController.prototype.login` and its helpers);
* the master-password dialog script (its addon-event handler
  `masterCompleteHandler` and its `rememberMasterPassword` helper);
* the user-settings module (`Settings.prototype.__validateToken`,
  `setSecurityToken`, `getSecurityToken`) over a key-value config store.

External asynchronous collaborators (CSRF fetch, GPG login, MFA check,
settings sync) are modelled by an environment recording each call's
outcome; the controller's observable behaviour is the list of effects
(worker emits, port emits, collaborator calls, cache writes) it performs,
in order.
-/

/-- A JavaScript `Error`, reduced to its message. -/
structure Err where
  message : String
deriving Repr, DecidableEq

/-- Outcome of an awaited fallible collaborator call: it either returns
normally or throws an `Err`. -/
inductive Outcome where
  | ok
  | err (e : Err)
deriving Repr, DecidableEq

/-- The worker at the origin of a login request. `pageModName` models the
JavaScript `worker.pageMod`: `none` when the worker has no pageMod (the
quick-access requester), `some n` when `worker.pageMod.args.name` is `n`.
`tabId` models `worker.tab.id`. -/
structure WorkerT where
  pageModName : Option String
  tabId : Nat
deriving Repr, DecidableEq

/-- `AuthController(worker, requestId)` from authController.js. -/
structure AuthController where
  worker : WorkerT
  requestId : String
deriving Repr, DecidableEq

/-- Outcomes of the external collaborator calls awaited during `login`
(`user.retrieveAndStoreCsrfToken`, `auth.login`, `user.isLoggedIn`,
`user.settings.sync`) plus the configured trusted domain
(`Config.read('user.settings.trustedDomain')`). -/
structure Env where
  csrf : Outcome
  gpgLogin : Outcome
  isLoggedIn : Outcome
  settingsSync : Outcome
  trustedDomain : String
deriving Repr, DecidableEq

/-- Observable effects performed by the controller, in program order.
`emitAuthWorker t ch args` models `Worker.get('Auth', t).port.emit(ch, ...args)`;
`emitPort rid st args` models `this.worker.port.emit(rid, st, ...args)`;
the step constructors record each collaborator call as it is attempted;
`storeMasterPassword` models `user.storeMasterPasswordTemporarily`;
`setDefaults` models `user.settings.setDefaults()`;
`appInit` models `app.pageMods.PassboltApp.init()`. -/
inductive Event where
  | emitAuthWorker (tabId : Nat) (channel : String) (args : List String)
  | emitPort (requestId : String) (status : String) (args : List String)
  | csrfFetch
  | cryptoLogin (passphrase : String)
  | mfaCheck
  | settingsSync
  | setDefaults
  | storeMasterPassword (passphrase : String) (remember : Bool)
  | appInit
deriving Repr, DecidableEq

/-- A JavaScript argument that may be absent, a non-string value, or a
string — the shapes the `redirect` parameter of `login` can take. -/
inductive JsArg where
  | undef
  | nonString
  | str (s : String)
deriving Repr, DecidableEq

/-- Whether the worker at the origin is the AuthForm pageMod worker:
`this.worker.pageMod && this.worker.pageMod.args.name == "AuthForm"`. -/
def isAuthForm (w : WorkerT) : Bool :=
  w.pageModName == some "AuthForm"

/-- `_beforeLogin`: when the origin is the AuthForm worker, emit a
processing feedback on that tab's Auth worker (and record the tab id,
which the model reads back from the worker itself). -/
def beforeLogin (c : AuthController) : List Event :=
  if isAuthForm c.worker then
    [Event.emitAuthWorker c.worker.tabId "passbolt.auth.login-processing" ["Logging in"]]
  else []

/-- `_checkMfaAuthentication`: only when the worker has no pageMod
(`!this.worker.pageMod`) is `user.isLoggedIn()` awaited; returns the
events performed and the outcome propagated to the caller. -/
def checkMfaAuthentication (w : WorkerT) (env : Env) : List Event × Outcome :=
  match w.pageModName with
  | none => ([Event.mfaCheck], env.isLoggedIn)
  | some _ => ([], Outcome.ok)

/-- `_syncUserSettings`: await `user.settings.sync()`; on failure log and
fall back to `user.settings.setDefaults()`. The error is never
re-thrown. -/
def syncUserSettings (env : Env) : List Event :=
  match env.settingsSync with
  | Outcome.ok => [Event.settingsSync]
  | Outcome.err _ => [Event.settingsSync, Event.setDefaults]

/-- Models `new URL(s).href` of the WHATWG URL platform API for the simple
absolute URLs the controller builds (scheme://host possibly followed by a
path): a URL whose part after `scheme://` has no path component gains a
trailing slash, any other string is returned unchanged. -/
def urlHref (s : String) : String :=
  match s.splitOn "://" with
  | [_, rest] => if rest.contains '/' then s else s ++ "/"
  | _ => s

/-- The guard of `_handleLoginSuccess`:
`!redirect || !(typeof redirect === 'string' || redirect instanceof String) || redirect.charAt(0) !== '/'`.
A missing or non-string redirect, the empty string (falsy), and a string
whose first character is not a slash all select the trusted-domain root. -/
def useRootRedirect : JsArg → Bool
  | JsArg.undef => true
  | JsArg.nonString => true
  | JsArg.str s =>
    match s.data with
    | [] => true
    | c :: _ => c != '/'

/-- The absolute redirect URL computed by `_handleLoginSuccess`:
`new URL(trustedDomain)` when the guard selects the root, otherwise
`new URL(trustedDomain + redirect)`, then `.href`. -/
def redirectUrl (domain : String) (redirect : JsArg) : String :=
  if useRootRedirect redirect then urlHref domain
  else
    match redirect with
    | JsArg.str s => urlHref (domain ++ s)
    | _ => urlHref domain

/-- Modelled from the spec: the redirect URL as the specification words it
— the trusted domain root when the redirect is missing, not a string, or
does not start with a slash, otherwise the trusted domain joined with the
redirect path (with the same URL normalization `new URL(...).href`
applies). Compared against the source-side `redirectUrl`. -/
def specRedirectUrl (domain : String) (redirect : JsArg) : String :=
  match redirect with
  | JsArg.str s =>
    match s.data with
    | '/' :: _ => urlHref (domain ++ s)
    | _ => urlHref domain
  | _ => urlHref domain

/-- `_handleLoginSuccess`: initialize the app pageMod, then either emit the
success message and redirect URL on the tab's Auth worker (AuthForm
origin), or resolve the original request with SUCCESS on the origin
worker's port. -/
def handleLoginSuccess (c : AuthController) (env : Env) (redirect : JsArg) : List Event :=
  Event.appInit ::
  (if isAuthForm c.worker then
    [Event.emitAuthWorker c.worker.tabId "passbolt.auth.login-success"
      ["You are now logged in!", redirectUrl env.trustedDomain redirect]]
  else
    [Event.emitPort c.requestId "SUCCESS" []])

/-- `this.worker.port.getEmitableError(error)`: the error normalized to a
structurally cloneable payload; modelled as its message. -/
def getEmitableError (e : Err) : String :=
  e.message

/-- `_handleLoginError`: either emit the error message on the tab's Auth
worker (AuthForm origin), or reject the original request with ERROR and
the normalized error payload on the origin worker's port. -/
def handleLoginError (c : AuthController) (e : Err) : List Event :=
  if isAuthForm c.worker then
    [Event.emitAuthWorker c.worker.tabId "passbolt.auth.login-failed" [e.message]]
  else
    [Event.emitPort c.requestId "ERROR" [getEmitableError e]]

/-- `AuthController.prototype.login(passphrase, remember, redirect)`:
before-login hook, CSRF fetch, GPG login, MFA check, settings sync,
optional passphrase remembering, then the success handler; any error
thrown before the settings sync jumps to the error handler. The result is
the ordered list of observable effects. -/
def login (c : AuthController) (env : Env) (passphrase : String)
    (remember : Bool) (redirect : JsArg) : List Event :=
  beforeLogin c ++ Event.csrfFetch ::
  match env.csrf with
  | Outcome.err e => handleLoginError c e
  | Outcome.ok =>
    Event.cryptoLogin passphrase ::
    match env.gpgLogin with
    | Outcome.err e => handleLoginError c e
    | Outcome.ok =>
      (checkMfaAuthentication c.worker env).1 ++
      match (checkMfaAuthentication c.worker env).2 with
      | Outcome.err e => handleLoginError c e
      | Outcome.ok =>
        syncUserSettings env ++
        (if remember then [Event.storeMasterPassword passphrase remember] else []) ++
        handleLoginSuccess c env redirect

/-- The step at which `login` throws before reaching the settings sync. -/
inductive FailStep where
  | csrf
  | crypto
  | mfa
deriving Repr, DecidableEq

/-- The first failing step of the fallible prefix of `login` (CSRF fetch,
GPG login, MFA check), if any, together with the thrown error. -/
def firstFailure (w : WorkerT) (env : Env) : Option (FailStep × Err) :=
  match env.csrf with
  | Outcome.err e => some (FailStep.csrf, e)
  | Outcome.ok =>
    match env.gpgLogin with
    | Outcome.err e => some (FailStep.crypto, e)
    | Outcome.ok =>
      match (checkMfaAuthentication w env).2 with
      | Outcome.err e => some (FailStep.mfa, e)
      | Outcome.ok => none

/-!
Master-password dialog (the unnamed content-script file of the
repository). Its addon-event handler reacts to
`passbolt.keyring.master.request.complete` and its remember helper issues
the `passbolt.user.rememberMasterPassword` request.
-/

/-- DOM side effects of the master-password dialog, in program order. -/
inductive UiEffect where
  | stopProcessing
  | focusPassphrase
  | labelError (msg : String)
  | loadFailureTemplate
deriving Repr, DecidableEq

/-- `masterCompleteHandler(token, status, attempts)`: on ERROR remove the
processing class, refocus the passphrase field, then either show the
inline invalid-passphrase label (fewer than 3 attempts) or load the
terminal failure template. Any other status does nothing. -/
def masterCompleteHandler (token : String) (status : String) (attempts : Nat) : List UiEffect :=
  if status == "ERROR" then
    UiEffect.stopProcessing :: UiEffect.focusPassphrase ::
    (if attempts < 3 then [UiEffect.labelError "Please enter a valid passphrase."]
     else [UiEffect.loadFailureTemplate])
  else []

/-- A correlated request sent to the addon code. -/
structure AddonRequest where
  channel : String
  masterPassword : String
  ttl : Nat
deriving Repr, DecidableEq

/-- `rememberMasterPassword(time)`: `time = time ? time : 300` (a missing
argument and the falsy 0 both select the 300-second default), then request
`passbolt.user.rememberMasterPassword` with the password and the time. -/
def rememberMasterPassword (masterPassword : String) (time : Option Nat) : AddonRequest :=
  let t : Nat :=
    match time with
    | some v => if v != 0 then v else 300
    | none => 300
  { channel := "passbolt.user.rememberMasterPassword", masterPassword := masterPassword, ttl := t }

/-!
User-settings module (the unnamed background file of the repository):
security-token validation and storage over the key-value config store.
-/

/-- The key-value config store collaborator; `write` shadows previous
entries and `read` returns the most recent value for a key. -/
abbrev ConfigStore := List (String × String)

/-- `Config.read(key)`: the most recently written value, if any. -/
def Config.read (cfg : ConfigStore) (k : String) : Option String :=
  match cfg.find? (fun kv => kv.1 == k) with
  | some kv => some kv.2
  | none => none

/-- `Config.write(key, value)`. -/
def Config.write (cfg : ConfigStore) (k : String) (v : String) : ConfigStore :=
  (k, v) :: cfg

/-- A hexadecimal digit, case-insensitive. -/
def isHexDigit (c : Char) : Bool :=
  c.isDigit || (('a' ≤ c.toLower) && (c.toLower ≤ 'f'))

/-- Models `Validator.isHexColor` of the vendored validator library: an
optional leading `#` followed by exactly 3 or 6 hexadecimal digits. -/
def isHexColor (s : String) : Bool :=
  let body : List Char :=
    match s.data with
    | '#' :: rest => rest
    | l => l
  (body.length == 3 || body.length == 6) && body.all isHexDigit

/-- The token argument of `setSecurityToken`: either `undefined` or an
object whose `color`, `code` and `textcolor` properties may each be
absent. -/
structure TokenObj where
  color : Option String
  code : Option String
  textcolor : Option String
deriving Repr, DecidableEq

/-- A JavaScript value passed as the token: `undefined` or an object. -/
inductive TokenArg where
  | undef
  | obj (t : TokenObj)
deriving Repr, DecidableEq

/-- `Settings.prototype.__validateToken`: checks, in order, that the token
is defined, that its `color`, `code` and `textcolor` properties are
defined, and that `color` and `textcolor` are valid hex colors; throws the
corresponding message otherwise, returns `true` on success. -/
def __validateToken : TokenArg → Except String Bool
  | TokenArg.undef => Except.error "A token cannot be empty"
  | TokenArg.obj t =>
    match t.color with
    | none => Except.error "A token color cannot be empty"
    | some color =>
      match t.code with
      | none => Except.error "A token code cannot be empty"
      | some _ =>
        match t.textcolor with
        | none => Except.error "A token text color cannot be empty"
        | some textcolor =>
          if !isHexColor color then
            Except.error ("This is not a valid token color: " ++ color)
          else if !isHexColor textcolor then
            Except.error ("This is not a valid token text color: " ++ textcolor)
          else Except.ok true

/-- `Settings.prototype.setSecurityToken`: validate, then write the three
config keys (`securityToken.code`, `securityToken.color`,
`securityToken.textColor`) and return `true`. Validation precedes every
write, so a thrown validation error leaves the store untouched. The inner
`undef` branch is unreachable because validation already rejected an
undefined token. -/
def setSecurityToken (cfg : ConfigStore) (token : TokenArg) : ConfigStore × Except String Bool :=
  match __validateToken token with
  | Except.error e => (cfg, Except.error e)
  | Except.ok _ =>
    match token with
    | TokenArg.undef => (cfg, Except.error "A token cannot be empty")
    | TokenArg.obj t =>
      let cfg := Config.write cfg "securityToken.code" (t.code.getD "")
      let cfg := Config.write cfg "securityToken.color" (t.color.getD "")
      let cfg := Config.write cfg "securityToken.textColor" (t.textcolor.getD "")
      (cfg, Except.ok true)

/-- The security token returned by `getSecurityToken`. -/
structure SecurityToken where
  code : String
  color : String
  textcolor : String
deriving Repr, DecidableEq

/-- `Settings.prototype.getSecurityToken`: read the three config keys;
throw when any of them is undefined, otherwise return the token. -/
def getSecurityToken (cfg : ConfigStore) : Except String SecurityToken :=
  match Config.read cfg "securityToken.code",
        Config.read cfg "securityToken.color",
        Config.read cfg "securityToken.textColor" with
  | some code, some color, some textcolor =>
    Except.ok { code := code, color := color, textcolor := textcolor }
  | _, _, _ => Except.error "Security token is not set"

/-!
Concrete fixtures used by witnesses and counterexamples.
-/

/-- An environment in which every collaborator call succeeds. -/
def envAllOk : Env :=
  { csrf := Outcome.ok, gpgLogin := Outcome.ok, isLoggedIn := Outcome.ok,
    settingsSync := Outcome.ok, trustedDomain := "https://example.org" }

/-- An environment whose MFA-pending check fails. -/
def envMfaFail : Env :=
  { envAllOk with isLoggedIn := Outcome.err { message := "MFA authentication is required." } }

/-- An environment whose settings sync fails. -/
def envSyncFail : Env :=
  { envAllOk with settingsSync := Outcome.err { message := "Could not sync the account settings." } }

/-- A quick-access requester: a worker without a pageMod. -/
def quickC : AuthController :=
  { worker := { pageModName := none, tabId := 1 }, requestId := "rid-1" }

/-- A page-level worker whose pageMod is not the AuthForm. -/
def appC : AuthController :=
  { worker := { pageModName := some "App", tabId := 2 }, requestId := "rid-2" }

/-- The login-form worker. -/
def authFormC : AuthController :=
  { worker := { pageModName := some "AuthForm", tabId := 3 }, requestId := "rid-3" }

/-- A well-formed security token. -/
def tok0 : TokenObj :=
  { color := some "#ff0000", code := some "ABC", textcolor := some "#000" }

/-!
Helper lemmas: the before-login hook and the error handler perform only
channel emissions, never login steps.
-/

theorem cryptoLogin_not_mem_beforeLogin (c : AuthController) (p : String) :
    Event.cryptoLogin p ∉ beforeLogin c := by
  unfold beforeLogin; split <;> simp

theorem mfaCheck_not_mem_beforeLogin (c : AuthController) :
    Event.mfaCheck ∉ beforeLogin c := by
  unfold beforeLogin; split <;> simp

theorem settingsSync_not_mem_beforeLogin (c : AuthController) :
    Event.settingsSync ∉ beforeLogin c := by
  unfold beforeLogin; split <;> simp

theorem cryptoLogin_not_mem_handleLoginError (c : AuthController) (e : Err) (p : String) :
    Event.cryptoLogin p ∉ handleLoginError c e := by
  unfold handleLoginError; split <;> simp

theorem mfaCheck_not_mem_handleLoginError (c : AuthController) (e : Err) :
    Event.mfaCheck ∉ handleLoginError c e := by
  unfold handleLoginError; split <;> simp

theorem settingsSync_not_mem_handleLoginError (c : AuthController) (e : Err) :
    Event.settingsSync ∉ handleLoginError c e := by
  unfold handleLoginError; split <;> simp

/-- The source-side redirect URL computation agrees with the
specification-side description for every domain and redirect argument. -/
theorem redirectUrl_eq_specRedirectUrl (domain : String) (red : JsArg) :
    redirectUrl domain red = specRedirectUrl domain red := by
  cases red with
  | undef => rfl
  | nonString => rfl
  | str s =>
    unfold redirectUrl specRedirectUrl useRootRedirect
    cases hd : s.data with
    | nil => simp [hd]
    | cons c rest =>
      by_cases hc : c = '/'
      · subst hc; simp [hd]
      · simp [hd, hc]

/-- C1: for every invocation of `login`, the steps run in strict order —
CSRF token fetch, then crypto-engine login with the passphrase, then the
MFA check, then settings sync — and if the CSRF fetch, the crypto login or
the MFA check fails, the login runs the failure handler and none of the
later steps execute. The conclusion characterizes the effect trace at the
first failing step (or on the failure-free prefix). -/
theorem C1_login_step_sequencing (c : AuthController) (env : Env) (p : String)
    (r : Bool) (red : JsArg) :
    match firstFailure c.worker env with
    | some (FailStep.csrf, e) =>
        login c env p r red = beforeLogin c ++ [Event.csrfFetch] ++ handleLoginError c e ∧
        Event.cryptoLogin p ∉ login c env p r red ∧
        Event.mfaCheck ∉ login c env p r red ∧
        Event.settingsSync ∉ login c env p r red
    | some (FailStep.crypto, e) =>
        login c env p r red =
          beforeLogin c ++ [Event.csrfFetch, Event.cryptoLogin p] ++ handleLoginError c e ∧
        Event.mfaCheck ∉ login c env p r red ∧
        Event.settingsSync ∉ login c env p r red
    | some (FailStep.mfa, e) =>
        login c env p r red =
          beforeLogin c ++ [Event.csrfFetch, Event.cryptoLogin p, Event.mfaCheck] ++
            handleLoginError c e ∧
        Event.settingsSync ∉ login c env p r red
    | none =>
        login c env p r red =
          beforeLogin c ++ [Event.csrfFetch, Event.cryptoLogin p] ++
          (checkMfaAuthentication c.worker env).1 ++ syncUserSettings env ++
          (if r then [Event.storeMasterPassword p r] else []) ++
          handleLoginSuccess c env red := by
  obtain ⟨w, rid⟩ := c
  obtain ⟨csrf, gpg, ml, ss, dom⟩ := env
  cases csrf with
  | err e =>
    refine ⟨by simp [firstFailure, login], ?_, ?_, ?_⟩ <;>
      simp [login, List.mem_append, cryptoLogin_not_mem_beforeLogin,
        mfaCheck_not_mem_beforeLogin, settingsSync_not_mem_beforeLogin,
        cryptoLogin_not_mem_handleLoginError, mfaCheck_not_mem_handleLoginError,
        settingsSync_not_mem_handleLoginError]
  | ok =>
    cases gpg with
    | err e =>
      refine ⟨by simp [firstFailure, login], ?_, ?_⟩ <;>
        simp [login, List.mem_append, mfaCheck_not_mem_beforeLogin,
          settingsSync_not_mem_beforeLogin, mfaCheck_not_mem_handleLoginError,
          settingsSync_not_mem_handleLoginError]
    | ok =>
      obtain ⟨pm, tid⟩ := w
      cases pm with
      | none =>
        cases ml with
        | err e =>
          refine ⟨by simp [firstFailure, login, checkMfaAuthentication], ?_⟩
          simp [login, checkMfaAuthentication, List.mem_append,
            settingsSync_not_mem_beforeLogin, settingsSync_not_mem_handleLoginError]
        | ok =>
          simp [firstFailure, login, checkMfaAuthentication]
      | some nm =>
        simp [firstFailure, login, checkMfaAuthentication]

/-- C2: when the CSRF fetch, the crypto login and the MFA check succeed but
the settings sync fails, the login does not fail: default settings are
applied, no error is surfaced on any channel, and the success handler
still runs. -/
theorem C2_settings_sync_failure_tolerated (c : AuthController) (env : Env)
    (p : String) (r : Bool) (red : JsArg) (e : Err)
    (h1 : env.csrf = Outcome.ok) (h2 : env.gpgLogin = Outcome.ok)
    (h3 : (checkMfaAuthentication c.worker env).2 = Outcome.ok)
    (h4 : env.settingsSync = Outcome.err e) :
    login c env p r red =
      beforeLogin c ++ [Event.csrfFetch, Event.cryptoLogin p] ++
        (checkMfaAuthentication c.worker env).1 ++
        [Event.settingsSync, Event.setDefaults] ++
        (if r then [Event.storeMasterPassword p r] else []) ++
        handleLoginSuccess c env red ∧
    Event.setDefaults ∈ login c env p r red ∧
    (∀ args, Event.emitPort c.requestId "ERROR" args ∉ login c env p r red) ∧
    (∀ t args, Event.emitAuthWorker t "passbolt.auth.login-failed" args ∉ login c env p r red) := by
  obtain ⟨⟨pm, tid⟩, rid⟩ := c
  obtain ⟨csrf, gpg, ml, ss, dom⟩ := env
  simp only [Env.csrf, Env.gpgLogin, Env.settingsSync] at h1 h2 h4
  subst h1; subst h2; subst h4
  cases pm with
  | none =>
    simp only [checkMfaAuthentication] at h3 ⊢
    subst h3
    refine ⟨by simp [login, checkMfaAuthentication, syncUserSettings], ?_, ?_, ?_⟩ <;>
      simp [login, checkMfaAuthentication, syncUserSettings, beforeLogin,
        handleLoginSuccess, isAuthForm, List.mem_append]
  | some nm =>
    refine ⟨by simp [login, checkMfaAuthentication, syncUserSettings], ?_, ?_, ?_⟩ <;>
      simp [login, checkMfaAuthentication, syncUserSettings, beforeLogin,
        handleLoginSuccess, isAuthForm, List.mem_append] <;>
      intros <;> split <;> simp

/-- C2 witness: a quick-access login whose settings sync fails still
applies the default settings. -/
theorem C2_settings_sync_failure_tolerated_witness :
    envSyncFail.csrf = Outcome.ok ∧
    Event.setDefaults ∈ login quickC envSyncFail "pass" true JsArg.undef :=
  ⟨by decide,
   (C2_settings_sync_failure_tolerated quickC envSyncFail "pass" true JsArg.undef
      { message := "Could not sync the account settings." }
      (by decide) (by decide) (by decide) (by decide)).2.1⟩

/-- C3 counterexample: a quick-access login with `remember = true` whose
crypto login succeeded but whose MFA check failed never stores the
passphrase — the claim's "regardless of whether any later step fails"
does not hold for the MFA check. -/
theorem C3_counterexample_mfa_failure_skips_store :
    envMfaFail.gpgLogin = Outcome.ok ∧
    (∀ b : Bool, Event.storeMasterPassword "pass" b ∉
      login quickC envMfaFail "pass" true JsArg.undef) := by
  decide

/-- C3 (amended): for every invocation of `login` with `remember`
requested, the passphrase is stored exactly when the fallible prefix —
CSRF fetch, crypto login and MFA check — has no failure; the
`settingsSync` outcome is universally quantified on both sides of the
iff, so a settings-sync failure does not prevent the storage. -/
theorem C3_remember_requires_mfa_success (c : AuthController) (env : Env)
    (p : String) (red : JsArg) :
    Event.storeMasterPassword p true ∈ login c env p true red ↔
      firstFailure c.worker env = none := by
  obtain ⟨⟨pm, tid⟩, rid⟩ := c
  obtain ⟨csrf, gpg, ml, ss, dom⟩ := env
  cases pm <;> cases csrf <;> cases gpg <;> cases ml <;> cases ss <;>
    simp [login, firstFailure, checkMfaAuthentication, syncUserSettings, beforeLogin,
      handleLoginSuccess, handleLoginError, isAuthForm, List.mem_append] <;>
    split <;> simp

/-- C4 counterexample: a worker whose pageMod is not the AuthForm is not
the login-form worker, yet a fully successful login from it performs no
MFA check — the claim's "exactly when the originating worker is not the
login-form worker" fails. -/
theorem C4_counterexample_pagemod_worker_skips_mfa :
    isAuthForm appC.worker = false ∧
    Event.mfaCheck ∉ login appC envAllOk "pass" false JsArg.undef := by
  decide

/-- C4 (amended): once the CSRF fetch and the crypto login succeed, the
MFA-pending check is performed exactly when the originating worker has no
pageMod (a non-page-level requester such as the quick-access context);
every worker with a pageMod — the login-form worker among them — skips
it. -/
theorem C4_mfa_check_iff_no_pagemod (c : AuthController) (env : Env)
    (p : String) (r : Bool) (red : JsArg)
    (h1 : env.csrf = Outcome.ok) (h2 : env.gpgLogin = Outcome.ok) :
    Event.mfaCheck ∈ login c env p r red ↔ c.worker.pageModName = none := by
  obtain ⟨⟨pm, tid⟩, rid⟩ := c
  obtain ⟨csrf, gpg, ml, ss, dom⟩ := env
  simp only [Env.csrf, Env.gpgLogin] at h1 h2
  subst h1; subst h2
  cases pm with
  | none =>
    cases ml <;> cases ss <;>
      simp [login, checkMfaAuthentication, syncUserSettings, beforeLogin,
        handleLoginSuccess, handleLoginError, isAuthForm]
  | some nm =>
    cases ml <;> cases ss <;>
      simp [login, checkMfaAuthentication, syncUserSettings, beforeLogin,
        handleLoginSuccess, handleLoginError, isAuthForm, List.mem_append] <;>
      split <;> simp

/-- C4 witness: the quick-access worker (no pageMod) does get the MFA
check. -/
theorem C4_mfa_check_iff_no_pagemod_witness :
    (Event.mfaCheck ∈ login quickC envAllOk "pass" false JsArg.undef) ↔
      quickC.worker.pageModName = none :=
  C4_mfa_check_iff_no_pagemod quickC envAllOk "pass" false JsArg.undef (by decide) (by decide)

/-- C5: a successful login from the login-form worker emits the success
event whose redirect URL is the trusted domain root when the redirect is
missing, not a string, or not rooted at a slash, and the trusted domain
joined with the redirect path otherwise (`specRedirectUrl` spells out the
specification's wording; `redirectUrl_eq_specRedirectUrl` relates it to
the source computation). -/
theorem C5_redirect_url (c : AuthController) (env : Env) (p : String)
    (r : Bool) (red : JsArg)
    (hA : isAuthForm c.worker = true)
    (h1 : env.csrf = Outcome.ok) (h2 : env.gpgLogin = Outcome.ok) :
    Event.emitAuthWorker c.worker.tabId "passbolt.auth.login-success"
      ["You are now logged in!", specRedirectUrl env.trustedDomain red] ∈
      login c env p r red := by
  obtain ⟨⟨pm, tid⟩, rid⟩ := c
  obtain ⟨csrf, gpg, ml, ss, dom⟩ := env
  simp only [Env.csrf, Env.gpgLogin] at h1 h2
  subst h1; subst h2
  simp only [isAuthForm] at hA
  simp only [beq_iff_eq] at hA
  subst hA
  cases ss <;>
    simp [login, checkMfaAuthentication, syncUserSettings, beforeLogin,
      handleLoginSuccess, isAuthForm, redirectUrl_eq_specRedirectUrl, List.mem_append]

/-- C5 witness: with trusted domain `https://example.org` and redirect
`/foo`, the login-form success event carries the joined URL. -/
theorem C5_redirect_url_witness :
    isAuthForm authFormC.worker = true ∧
    Event.emitAuthWorker authFormC.worker.tabId "passbolt.auth.login-success"
      ["You are now logged in!", specRedirectUrl envAllOk.trustedDomain (JsArg.str "/foo")] ∈
      login authFormC envAllOk "pass" false (JsArg.str "/foo") :=
  ⟨by decide,
   C5_redirect_url authFormC envAllOk "pass" false (JsArg.str "/foo")
     (by decide) (by decide) (by decide)⟩

/-- C6: every completed login ends in exactly one of two delivery modes,
selected by the identity of the originating worker: the AuthForm origin
emits the outcome on the recorded tab's Auth worker (success channel with
message and redirect URL, failure channel with the error message), and any
other origin settles the original request on its own port with SUCCESS, or
with ERROR and the normalized error payload. -/
theorem C6_result_routing (c : AuthController) (env : Env) (p : String)
    (r : Bool) (red : JsArg) :
    match firstFailure c.worker env with
    | some (_, e) =>
        if isAuthForm c.worker then
          (login c env p r red).getLast? =
            some (Event.emitAuthWorker c.worker.tabId "passbolt.auth.login-failed" [e.message])
        else
          (login c env p r red).getLast? =
            some (Event.emitPort c.requestId "ERROR" [getEmitableError e])
    | none =>
        if isAuthForm c.worker then
          (login c env p r red).getLast? =
            some (Event.emitAuthWorker c.worker.tabId "passbolt.auth.login-success"
              ["You are now logged in!", redirectUrl env.trustedDomain red])
        else
          (login c env p r red).getLast? = some (Event.emitPort c.requestId "SUCCESS" []) := by
  obtain ⟨⟨pm, tid⟩, rid⟩ := c
  obtain ⟨csrf, gpg, ml, ss, dom⟩ := env
  cases pm with
  | none =>
    cases csrf <;> cases gpg <;> cases ml <;> cases ss <;> cases r <;>
      simp [firstFailure, login, checkMfaAuthentication, syncUserSettings, beforeLogin,
        handleLoginSuccess, handleLoginError, isAuthForm, getEmitableError,
        List.getLast?_cons_cons]
  | some nm =>
    by_cases hnm : nm = "AuthForm" <;>
      cases csrf <;> cases gpg <;> cases ml <;> cases ss <;> cases r <;>
        simp [firstFailure, login, checkMfaAuthentication, syncUserSettings, beforeLogin,
          handleLoginSuccess, handleLoginError, isAuthForm, getEmitableError, hnm,
          List.getLast?_cons_cons]

/-- C7: on a completion message with status ERROR, the dialog shows the
inline invalid-passphrase label exactly when the attempt counter is below
3, and switches to the terminal failure view exactly when it is 3 or
more. -/
theorem C7_passphrase_attempt_policy (tok : String) (a : Nat) :
    ((∃ m, UiEffect.labelError m ∈ masterCompleteHandler tok "ERROR" a) ↔ a < 3) ∧
    (UiEffect.loadFailureTemplate ∈ masterCompleteHandler tok "ERROR" a ↔ 3 ≤ a) := by
  unfold masterCompleteHandler
  by_cases h : a < 3 <;> simp [h] <;> omega

/-- C8: when no explicit duration is supplied, the remember request sent
to the addon carries the default TTL of 300 seconds on the
`passbolt.user.rememberMasterPassword` channel. -/
theorem C8_default_remember_ttl (mp : String) :
    (rememberMasterPassword mp none).ttl = 300 ∧
    (rememberMasterPassword mp none).channel = "passbolt.user.rememberMasterPassword" :=
  ⟨rfl, rfl⟩

/-- C9: `setSecurityToken` throws and leaves the config store untouched
when the token is undefined, when any of its `color`, `code` or
`textcolor` properties is missing, or when `color` or `textcolor` is not a
valid hex color; otherwise it writes all three fields to the store and
returns true. -/
theorem C9_set_security_token_validation (cfg : ConfigStore) (token : TokenArg) :
    match token with
    | TokenArg.undef =>
        (setSecurityToken cfg token).1 = cfg ∧
        ∃ e, (setSecurityToken cfg token).2 = Except.error e
    | TokenArg.obj t =>
        if t.color = none ∨ t.code = none ∨ t.textcolor = none ∨
           isHexColor (t.color.getD "") = false ∨ isHexColor (t.textcolor.getD "") = false then
          (setSecurityToken cfg token).1 = cfg ∧
          ∃ e, (setSecurityToken cfg token).2 = Except.error e
        else
          (setSecurityToken cfg token).2 = Except.ok true ∧
          Config.read (setSecurityToken cfg token).1 "securityToken.code" = t.code ∧
          Config.read (setSecurityToken cfg token).1 "securityToken.color" = t.color ∧
          Config.read (setSecurityToken cfg token).1 "securityToken.textColor" = t.textcolor := by
  cases token with
  | undef => simp [setSecurityToken, __validateToken]
  | obj t =>
    obtain ⟨color?, code?, textcolor?⟩ := t
    cases color? with
    | none => simp [setSecurityToken, __validateToken]
    | some co =>
      cases code? with
      | none => simp [setSecurityToken, __validateToken]
      | some cd =>
        cases textcolor? with
        | none => simp [setSecurityToken, __validateToken]
        | some tc =>
          by_cases hco : isHexColor co <;> by_cases htc : isHexColor tc <;>
            simp [setSecurityToken, __validateToken, hco, htc, Config.read, Config.write]

/-- C10: after a `setSecurityToken` whose validation passes, an immediate
`getSecurityToken` on the resulting store returns, without throwing, a
token whose code, color and textcolor equal those of the stored one. -/
theorem C10_get_after_set_roundtrip (cfg : ConfigStore) (t : TokenObj)
    (h : __validateToken (TokenArg.obj t) = Except.ok true) :
    ∃ st : SecurityToken,
      getSecurityToken (setSecurityToken cfg (TokenArg.obj t)).1 = Except.ok st ∧
      some st.code = t.code ∧ some st.color = t.color ∧ some st.textcolor = t.textcolor := by
  obtain ⟨color?, code?, textcolor?⟩ := t
  cases color? with
  | none => simp [__validateToken] at h
  | some co =>
    cases code? with
    | none => simp [__validateToken] at h
    | some cd =>
      cases textcolor? with
      | none => simp [__validateToken] at h
      | some tc =>
        refine ⟨{ code := cd, color := co, textcolor := tc }, ?_, rfl, rfl, rfl⟩
        simp [setSecurityToken, h, getSecurityToken, Config.read, Config.write]

/-- C10 witness: a concrete valid token round-trips through the store. -/
theorem C10_get_after_set_roundtrip_witness :
    __validateToken (TokenArg.obj tok0) = Except.ok true ∧
    ∃ st : SecurityToken,
      getSecurityToken (setSecurityToken [] (TokenArg.obj tok0)).1 = Except.ok st ∧
      some st.code = tok0.code ∧ some st.color = tok0.color ∧ some st.textcolor = tok0.textcolor :=
  ⟨rfl, C10_get_after_set_roundtrip [] tok0 rfl⟩
